import Mathlib

/-!
Shallow embedding of the peer-membership gossip module `plebnet/contacts.py`.

The transport layer (`MessageSender` / `MessageDeliveryError`) is modelled by an
oracle `Transport : host → port → message → Bool`: `true` means the delivery
succeeds, `false` means the transport raises its distinguished
`MessageDeliveryError`.  Wall-clock time (`now()`) is modelled by an explicit
`Nat` parameter `t` threaded through every operation that reads the clock.
Python object mutation on the shared `contacts` list becomes explicit state
passing on an `AddressBook` value, and every outbound delivery attempt is
recorded in a trace of `(recipient id, message)` pairs.
-/

set_option autoImplicit false

/-- A peer contact (`Contact.__init__`): immutable identity (`id`) and address
(`host`, `port`), plus the mutable liveness field `first_failure` (`None` in
Python becomes `none`). -/
structure Contact where
  id : String
  host : String
  port : Nat
  first_failure : Option Nat := none
deriving DecidableEq

/-- `Contact.link_down`: store the current time `t` as `first_failure`, if not
set already. -/
def Contact.link_down (c : Contact) (t : Nat) : Contact :=
  if c.first_failure = none then { c with first_failure := some t } else c

/-- `Contact.link_up`: clear the `first_failure` field (guarded, as in the
source, by it being set). -/
def Contact.link_up (c : Contact) : Contact :=
  if c.first_failure ≠ none then { c with first_failure := none } else c

/-- `Contact.is_active`: `first_failure is None`. -/
def Contact.is_active (c : Contact) : Bool :=
  c.first_failure.isNone

/-- A well-formed message envelope as constructed by the code: a `command`
string and a `data` payload that is either a `Contact` or Python `None`. -/
structure Message where
  command : String
  data : Option Contact
deriving DecidableEq

/-- An inbound raw message, i.e. a Python dict that may lack the `'command'`
or `'data'` keys.  The outer `Option` of each field records key presence; for
`rdata` the inner `Option Contact` is the stored value, which may itself be
Python `None`. -/
structure RawMessage where
  rcommand : Option String
  rdata : Option (Option Contact)
deriving DecidableEq

/-- Python exceptions that the modelled code can raise. -/
inductive PyError where
  | keyError
  | attributeError
deriving DecidableEq

/-- Delivery oracle standing for the transport: arguments are the recipient's
host and port and the message; `false` models `MessageDeliveryError`. -/
abbrev Transport := String → Nat → Message → Bool

/-- Trace of attempted deliveries: `(recipient id, message)` per send. -/
abbrev Trace := List (String × Message)

/-- The mutable state of an `AddressBook` (the receiver registration and the
interval tunables of `__init__` are transport glue with no protocol effect and
are not part of the state). -/
structure AddressBook where
  self_contact : Contact
  contacts : List Contact
  contact_restore_timeout : Nat
deriving DecidableEq

namespace AddressBook

/-- `__parse_message`: reading `raw_message['command']` and then
`raw_message['data']` raises `KeyError` when the key is absent. -/
def parse_message (raw_message : RawMessage) : Except PyError (String × Option Contact) :=
  match raw_message.rcommand with
  | none => .error .keyError
  | some command =>
    match raw_message.rdata with
    | none => .error .keyError
    | some data => .ok (command, data)

/-- `__generate_add_contact_message`. -/
def generate_add_contact_message (contact : Contact) : Message :=
  { command := "add-contact", data := some contact }

/-- `__generate_ping_message`. -/
def generate_ping_message : Message :=
  { command := "ping", data := none }

/-- `__set_link_state`: flip the link state of every contact in the list whose
id equals the given contact's id. -/
def set_link_state (t : Nat) (link_up : Bool) (ab : AddressBook) (contact : Contact) :
    AddressBook :=
  { ab with contacts := ab.contacts.map fun known_contact =>
      if known_contact.id = contact.id then
        if link_up then known_contact.link_up else known_contact.link_down t
      else known_contact }

/-- `send_message_to_contact`: attempt delivery through the transport; on
success mark the link up, on `MessageDeliveryError` mark it down; return
`True` iff delivery succeeded.  The attempted delivery is recorded in the
trace either way. -/
def send_message_to_contact (deliver : Transport) (t : Nat) (ab : AddressBook)
    (recipient : Contact) (message : Message) : Bool × AddressBook × Trace :=
  if deliver recipient.host recipient.port message then
    (true, set_link_state t true ab recipient, [(recipient.id, message)])
  else
    (false, set_link_state t false ab recipient, [(recipient.id, message)])

/-- The `for known_contact in self.contacts` loop of `__forward_contact`.
The iteration schedule is the list of contacts at loop entry; the sends only
read the immutable fields (`id`, `host`, `port`) of each element, so threading
the evolving book alongside the entry snapshot matches the Python in-place
field mutation. -/
def forward_loop (deliver : Transport) (t : Nat) (self_id : String) (contact : Contact)
    (message : Message) : List Contact → AddressBook → AddressBook × Trace
  | [], ab => (ab, [])
  | known_contact :: rest, ab =>
    if known_contact.id = contact.id then
      forward_loop deliver t self_id contact message rest ab
    else if known_contact.id = self_id then
      forward_loop deliver t self_id contact message rest ab
    else
      let s := send_message_to_contact deliver t ab known_contact message
      let r := forward_loop deliver t self_id contact message rest s.2.1
      (r.1, s.2.2 ++ r.2)

/-- `__forward_contact`: send an `add-contact` message for `contact` to every
known contact, skipping the announced contact itself and self. -/
def forward_contact (deliver : Transport) (t : Nat) (ab : AddressBook) (contact : Contact) :
    AddressBook × Trace :=
  forward_loop deliver t ab.self_contact.id contact (generate_add_contact_message contact)
    ab.contacts ab

/-- `__add_contact`: discard a self-referential or already-known contact;
otherwise append it and forward it. -/
def add_contact (deliver : Transport) (t : Nat) (ab : AddressBook) (contact : Contact) :
    AddressBook × Trace :=
  if contact.id = ab.self_contact.id then (ab, [])
  else if ab.contacts.any fun known_contact => known_contact.id == contact.id then (ab, [])
  else forward_contact deliver t { ab with contacts := ab.contacts ++ [contact] } contact

/-- `create_new_distributed_contact`: append unconditionally, then forward. -/
def create_new_distributed_contact (deliver : Transport) (t : Nat) (ab : AddressBook)
    (contact : Contact) : AddressBook × Trace :=
  forward_contact deliver t { ab with contacts := ab.contacts ++ [contact] } contact

/-- The scan of `__delete_contact`: remove the first id-matching entry. -/
def delete_loop (id0 : String) : List Contact → List Contact
  | [] => []
  | known_contact :: rest =>
    if known_contact.id = id0 then rest else known_contact :: delete_loop id0 rest

/-- `__delete_contact`. -/
def delete_contact (ab : AddressBook) (contact : Contact) : AddressBook :=
  { ab with contacts := delete_loop contact.id ab.contacts }

/-- The body of the `for contact in self.contacts` loop of
`__start_pinging_inactive_nodes`, for one examined contact: skip active
contacts; ping inactive ones; on a failed ping, evict when the failure streak
strictly exceeds the restore timeout.  Reading `contact.first_failure` after
the failed send is done on the pre-send value, which equals the Python
post-`link_down` value because `link_down` never overwrites a set timestamp. -/
def ping_step (deliver : Transport) (t : Nat) (ab : AddressBook) (contact : Contact) :
    AddressBook × Trace :=
  if contact.is_active then (ab, [])
  else
    let s := send_message_to_contact deliver t ab contact generate_ping_message
    if s.1 then (s.2.1, s.2.2)
    else
      match contact.first_failure with
      | some f =>
        if ab.contact_restore_timeout < t - f then (delete_contact s.2.1 contact, s.2.2)
        else (s.2.1, s.2.2)
      | none => (s.2.1, s.2.2)

/-- The iteration of one wake-up of `__start_pinging_inactive_nodes`,
reproducing the CPython list-iterator semantics: the cursor `i` advances by
one per step over the *live* list, so a removal at the cursor slides the next
element into the removed slot and the iterator skips it.  `fuel` bounds the
number of iterations; since the cursor grows by one per iteration and the
list never grows, `ab.contacts.length` iterations always suffice. -/
def ping_loop (deliver : Transport) (t : Nat) :
    Nat → Nat → AddressBook → AddressBook × Trace
  | 0, _, ab => (ab, [])
  | fuel + 1, i, ab =>
    match ab.contacts[i]? with
    | none => (ab, [])
    | some contact =>
      let s := ping_step deliver t ab contact
      let r := ping_loop deliver t fuel (i + 1) s.1
      (r.1, s.2 ++ r.2)

/-- One full wake-up (after the sleep) of the eviction loop
`__start_pinging_inactive_nodes`, at clock time `t`. -/
def ping_cycle (deliver : Transport) (t : Nat) (ab : AddressBook) : AddressBook × Trace :=
  ping_loop deliver t ab.contacts.length 0 ab

/-- `notify`: parse the raw message, dispatch `add-contact`, ignore every
other command.  Dispatching `add-contact` with a `None` payload raises
`AttributeError` inside `__add_contact` (`contact.id` on `None`). -/
def notify (deliver : Transport) (t : Nat) (ab : AddressBook) (message : RawMessage) :
    Except PyError (AddressBook × Trace) :=
  match parse_message message with
  | .error e => .error e
  | .ok (command, data) =>
    if command = "add-contact" then
      match data with
      | some c => .ok (add_contact deliver t ab c)
      | none => .error .attributeError
    else .ok (ab, [])

end AddressBook

/-! ### Basic lemmas about `Contact` transitions -/

theorem Contact.link_down_id (c : Contact) (t : Nat) : (c.link_down t).id = c.id := by
  unfold Contact.link_down; split <;> rfl

theorem Contact.link_up_id (c : Contact) : c.link_up.id = c.id := by
  unfold Contact.link_up; split <;> rfl

theorem Contact.link_down_host (c : Contact) (t : Nat) : (c.link_down t).host = c.host := by
  unfold Contact.link_down; split <;> rfl

theorem Contact.link_up_host (c : Contact) : c.link_up.host = c.host := by
  unfold Contact.link_up; split <;> rfl

theorem Contact.link_down_port (c : Contact) (t : Nat) : (c.link_down t).port = c.port := by
  unfold Contact.link_down; split <;> rfl

theorem Contact.link_up_port (c : Contact) : c.link_up.port = c.port := by
  unfold Contact.link_up; split <;> rfl

theorem Contact.is_active_link_up (c : Contact) : c.link_up.is_active = true := by
  rcases h : c.first_failure with _ | s <;>
    simp [Contact.link_up, Contact.is_active, h]

theorem Contact.is_active_link_down (c : Contact) (t : Nat) :
    (c.link_down t).is_active = false := by
  rcases h : c.first_failure with _ | s <;>
    simp [Contact.link_down, Contact.is_active, h]

theorem Contact.link_down_of_inactive (c : Contact) (t f : Nat)
    (h : c.first_failure = some f) : c.link_down t = c := by
  simp [Contact.link_down, h]

theorem list_map_fixes {α : Type} (l : List α) (f : α → α) (h : ∀ a ∈ l, f a = a) :
    l.map f = l := by
  induction l with
  | nil => rfl
  | cons a l ih =>
    simp only [List.map_cons, h a (List.mem_cons_self a l)]
    rw [ih fun b hb => h b (List.mem_cons_of_mem a hb)]

theorem send_message_trace (deliver : Transport) (t : Nat) (ab : AddressBook)
    (recipient : Contact) (message : Message) :
    (AddressBook.send_message_to_contact deliver t ab recipient message).2.2
      = [(recipient.id, message)] := by
  unfold AddressBook.send_message_to_contact; split <;> rfl

/-! ### Claims C6 and C7: the `Contact` liveness state machine -/

/-- Claim C6: `link_down()` on an active contact records the current time in
`first_failure`; while inactive the timestamp is never overwritten, so a
second `link_down()` before any `link_up()` leaves the state unchanged. -/
theorem C6_link_down_sets_timestamp_once (c : Contact) (t t' : Nat) :
    (c.first_failure = none → (c.link_down t).first_failure = some t) ∧
    (∀ s, c.first_failure = some s → (c.link_down t).first_failure = some s) ∧
    ((c.link_down t).link_down t' = c.link_down t) := by
  rcases h : c.first_failure with _ | s <;> simp [Contact.link_down, h]

/-- Concrete instance of C6 with the hypotheses discharged. -/
theorem C6_witness :
    ((Contact.mk "a" "h" 1 none).link_down 5).first_failure = some 5 ∧
    ((Contact.mk "a" "h" 1 (some 2)).link_down 5).first_failure = some 2 ∧
    ((Contact.mk "a" "h" 1 none).link_down 5).link_down 9
      = (Contact.mk "a" "h" 1 none).link_down 5 :=
  ⟨(C6_link_down_sets_timestamp_once (Contact.mk "a" "h" 1 none) 5 9).1 rfl,
   (C6_link_down_sets_timestamp_once (Contact.mk "a" "h" 1 (some 2)) 5 9).2.1 2 rfl,
   (C6_link_down_sets_timestamp_once (Contact.mk "a" "h" 1 none) 5 9).2.2⟩

/-- Claim C7: `link_up()` always leaves the contact active (clearing
`first_failure`), is a no-op on an already-active contact, and `is_active()`
is a pure predicate true exactly when `first_failure` is absent. -/
theorem C7_link_up_clears_and_is_active_iff (c : Contact) :
    (c.link_up.first_failure = none) ∧
    (c.first_failure = none → c.link_up = c) ∧
    (c.is_active = true ↔ c.first_failure = none) := by
  rcases h : c.first_failure with _ | s <;>
    simp [Contact.link_up, Contact.is_active, h]

/-- Concrete instance of C7 with the hypothesis discharged. -/
theorem C7_witness :
    ((Contact.mk "a" "h" 1 (some 3)).link_up.first_failure = none) ∧
    ((Contact.mk "a" "h" 1 none).link_up = Contact.mk "a" "h" 1 none) ∧
    ((Contact.mk "a" "h" 1 none).is_active = true) :=
  ⟨(C7_link_up_clears_and_is_active_iff (Contact.mk "a" "h" 1 (some 3))).1,
   (C7_link_up_clears_and_is_active_iff (Contact.mk "a" "h" 1 none)).2.1 rfl,
   (C7_link_up_clears_and_is_active_iff (Contact.mk "a" "h" 1 none)).2.2.mpr rfl⟩

/-! ### Concrete sample values used by witnesses and counterexamples -/

def contactW : Contact := { id := "w", host := "hw", port := 4, first_failure := some 2 }

def selfW : Contact := { id := "me", host := "hs", port := 1 }

def abW : AddressBook :=
  { self_contact := selfW, contacts := [contactW], contact_restore_timeout := 3 }

def msgW : Message := { command := "ping", data := none }

/-! ### Claim C1: delivery outcome drives the liveness feedback -/

/-- Claim C1: `send_message_to_contact` attempts one delivery to the
recipient; on success it returns `true` and every id-matching entry of the
view is active afterwards (`link_up`), on the transport's delivery error it
returns `false` and every id-matching entry is inactive afterwards
(`link_down`).  Being a total function into `Bool × _`, the model never
propagates the delivery error to the caller. -/
theorem C1_send_liveness_feedback (deliver : Transport) (t : Nat) (ab : AddressBook)
    (recipient : Contact) (message : Message) :
    (AddressBook.send_message_to_contact deliver t ab recipient message).2.2
      = [(recipient.id, message)] ∧
    (AddressBook.send_message_to_contact deliver t ab recipient message).1
      = deliver recipient.host recipient.port message ∧
    (deliver recipient.host recipient.port message = true →
      ∀ q ∈ (AddressBook.send_message_to_contact deliver t ab recipient message).2.1.contacts,
        q.id = recipient.id → q.is_active = true) ∧
    (deliver recipient.host recipient.port message = false →
      ∀ q ∈ (AddressBook.send_message_to_contact deliver t ab recipient message).2.1.contacts,
        q.id = recipient.id → q.is_active = false) := by
  refine ⟨send_message_trace deliver t ab recipient message, ?_, ?_, ?_⟩
  · unfold AddressBook.send_message_to_contact
    split <;> simp_all
  · intro hd q hq hid
    unfold AddressBook.send_message_to_contact at hq
    rw [hd] at hq
    simp only [if_true, AddressBook.set_link_state, List.mem_map] at hq
    obtain ⟨e, _, rfl⟩ := hq
    by_cases he : e.id = recipient.id
    · simp [he, Contact.is_active_link_up]
    · simp only [he, if_false] at hid
  · intro hd q hq hid
    unfold AddressBook.send_message_to_contact at hq
    rw [hd] at hq
    simp only [Bool.false_eq_true, if_false, AddressBook.set_link_state, List.mem_map] at hq
    obtain ⟨e, _, rfl⟩ := hq
    by_cases he : e.id = recipient.id
    · simp [he, Contact.is_active_link_down]
    · simp only [he, if_false] at hid

/-- Concrete instance of C1 with both delivery outcomes discharged. -/
theorem C1_witness :
    (∀ q ∈ (AddressBook.send_message_to_contact (fun _ _ _ => true) 7 abW contactW
        msgW).2.1.contacts, q.id = contactW.id → q.is_active = true) ∧
    (∀ q ∈ (AddressBook.send_message_to_contact (fun _ _ _ => false) 7 abW contactW
        msgW).2.1.contacts, q.id = contactW.id → q.is_active = false) :=
  ⟨(C1_send_liveness_feedback (fun _ _ _ => true) 7 abW contactW msgW).2.2.1 rfl,
   (C1_send_liveness_feedback (fun _ _ _ => false) 7 abW contactW msgW).2.2.2 rfl⟩

/-! ### Claim C10: sends to an unknown recipient mutate nothing -/

/-- Claim C10: when the recipient's id matches no entry of the current view,
`send_message_to_contact` leaves the `AddressBook` completely unchanged —
membership and every contact's liveness state; liveness feedback is applied
only to id-matching entries of the view (the recipient argument is consumed
immutably by the model). -/
theorem C10_unknown_recipient_frame (deliver : Transport) (t : Nat) (ab : AddressBook)
    (recipient : Contact) (message : Message)
    (h : ∀ q ∈ ab.contacts, q.id ≠ recipient.id) :
    (AddressBook.send_message_to_contact deliver t ab recipient message).2.1 = ab := by
  have hfix : ∀ b : Bool, AddressBook.set_link_state t b ab recipient = ab := by
    intro b
    unfold AddressBook.set_link_state
    rw [list_map_fixes _ _ fun e he => by simp [h e he]]
  unfold AddressBook.send_message_to_contact
  split <;> simp [hfix]

/-- Concrete instance of C10 with the no-match hypothesis discharged. -/
theorem C10_witness :
    (AddressBook.send_message_to_contact (fun _ _ _ => false) 7 abW
      (Contact.mk "stranger" "hx" 9 none) msgW).2.1 = abW :=
  C10_unknown_recipient_frame (fun _ _ _ => false) 7 abW
    (Contact.mk "stranger" "hx" 9 none) msgW (by decide)

/-! ### Claim C2: self-referential and duplicate add-contact are no-ops -/

/-- Claim C2: an `add-contact` for a peer whose id equals self's id, or whose
id is already known, is discarded: the view is unchanged (same record, hence
same size and members) and no forward messages are sent. -/
theorem C2_duplicate_or_self_discarded (deliver : Transport) (t : Nat) (ab : AddressBook)
    (contact : Contact)
    (h : contact.id = ab.self_contact.id ∨ ∃ q ∈ ab.contacts, q.id = contact.id) :
    AddressBook.add_contact deliver t ab contact = (ab, []) := by
  unfold AddressBook.add_contact
  rcases h with h | ⟨q, hq, hid⟩
  · simp [h]
  · have hany : (ab.contacts.any fun known_contact => known_contact.id == contact.id)
        = true := by
      simp only [List.any_eq_true, beq_iff_eq]
      exact ⟨q, hq, hid⟩
    by_cases hs : contact.id = ab.self_contact.id <;> simp [hs, hany]

/-- Concrete instance of C2: a duplicate id and a self id are both dropped. -/
theorem C2_witness :
    AddressBook.add_contact (fun _ _ _ => true) 7 abW (Contact.mk "w" "other" 17 none)
      = (abW, []) ∧
    AddressBook.add_contact (fun _ _ _ => true) 7 abW (Contact.mk "me" "other" 17 none)
      = (abW, []) :=
  ⟨C2_duplicate_or_self_discarded (fun _ _ _ => true) 7 abW (Contact.mk "w" "other" 17 none)
      (Or.inr ⟨contactW, by decide, rfl⟩),
   C2_duplicate_or_self_discarded (fun _ _ _ => true) 7 abW (Contact.mk "me" "other" 17 none)
      (Or.inl rfl)⟩

/-! ### Claim C3: forwarding targets of a genuinely new peer -/

theorem forward_loop_trace (deliver : Transport) (t : Nat) (self_id : String)
    (contact : Contact) (message : Message) (l : List Contact) :
    ∀ ab : AddressBook,
      (AddressBook.forward_loop deliver t self_id contact message l ab).2
        = (l.filter fun kc => !(kc.id == contact.id) && !(kc.id == self_id)).map
            fun kc => (kc.id, message) := by
  induction l with
  | nil => intro ab; rfl
  | cons kc rest ih =>
    intro ab
    by_cases h1 : kc.id = contact.id
    · simp [AddressBook.forward_loop, h1, ih]
    · by_cases h2 : kc.id = self_id
      · simp [AddressBook.forward_loop, h1, h2, ih]
      · simp [AddressBook.forward_loop, h1, h2, ih, send_message_trace]

/-- Claim C3: when a genuinely new peer is inserted — by the `add-contact`
handler on a fresh id, or unconditionally by `create_new_distributed_contact`
— a fresh `add-contact` message for it is sent to exactly the entries of the
post-insertion view whose id differs from the new peer's id and from self's
id, in view order. -/
theorem C3_forward_targets (deliver : Transport) (t : Nat) (ab : AddressBook)
    (contact : Contact) :
    (contact.id ≠ ab.self_contact.id → (∀ q ∈ ab.contacts, q.id ≠ contact.id) →
      (AddressBook.add_contact deliver t ab contact).2
        = ((ab.contacts ++ [contact]).filter fun kc =>
            !(kc.id == contact.id) && !(kc.id == ab.self_contact.id)).map
            fun kc => (kc.id, AddressBook.generate_add_contact_message contact)) ∧
    ((AddressBook.create_new_distributed_contact deliver t ab contact).2
        = ((ab.contacts ++ [contact]).filter fun kc =>
            !(kc.id == contact.id) && !(kc.id == ab.self_contact.id)).map
            fun kc => (kc.id, AddressBook.generate_add_contact_message contact)) := by
  constructor
  · intro hself hfresh
    have hany : (ab.contacts.any fun known_contact => known_contact.id == contact.id)
        = false := by
      simp only [List.any_eq_false, beq_iff_eq]
      exact fun q hq => hfresh q hq
    unfold AddressBook.add_contact
    simp only [hself, if_false, hany, Bool.false_eq_true]
    exact forward_loop_trace deliver t ab.self_contact.id contact
      (AddressBook.generate_add_contact_message contact) (ab.contacts ++ [contact]) _
  · exact forward_loop_trace deliver t ab.self_contact.id contact
      (AddressBook.generate_add_contact_message contact) (ab.contacts ++ [contact]) _

/-- Concrete instance of C3: with current other peers `{w}` and self `me`,
announcing the fresh peer `p` forwards exactly to `w`, never to `p` or to
`me`. -/
theorem C3_witness :
    (AddressBook.add_contact (fun _ _ _ => true) 7 abW (Contact.mk "p" "hp" 8 none)).2
      = [("w", AddressBook.generate_add_contact_message (Contact.mk "p" "hp" 8 none))] ∧
    (AddressBook.create_new_distributed_contact (fun _ _ _ => true) 7 abW
        (Contact.mk "p" "hp" 8 none)).2
      = [("w", AddressBook.generate_add_contact_message (Contact.mk "p" "hp" 8 none))] :=
  ⟨((C3_forward_targets (fun _ _ _ => true) 7 abW (Contact.mk "p" "hp" 8 none)).1
      (by decide) (by decide)).trans (by decide),
   ((C3_forward_targets (fun _ _ _ => true) 7 abW (Contact.mk "p" "hp" 8 none)).2).trans
      (by decide)⟩

/-! ### Claims C5 and C9: inbound message handling -/

/-- Claim C5 counterexample: the claim extends silent discard to malformed
messages, but a raw message lacking the `'command'` key makes `notify` raise
`KeyError` (`__parse_message` line 128) instead of being silently ignored, so
an error is propagated out of the handler. -/
theorem C5_counterexample :
    AddressBook.notify (fun _ _ _ => true) 0 abW { rcommand := none, rdata := none }
      = Except.error PyError.keyError := rfl

/-- Claim C5 (amended): every *well-formed* envelope (both keys present)
whose command is not `add-contact` is silently ignored: the view and all
liveness states are unchanged, nothing is sent, and no error is raised. -/
theorem C5_unknown_command_ignored (deliver : Transport) (t : Nat) (ab : AddressBook)
    (command : String) (data : Option Contact) (h : command ≠ "add-contact") :
    AddressBook.notify deliver t ab { rcommand := some command, rdata := some data }
      = Except.ok (ab, []) := by
  simp [AddressBook.notify, AddressBook.parse_message, h]

/-- Concrete instance of amended C5: the `noop` command is silently ignored. -/
theorem C5_witness :
    AddressBook.notify (fun _ _ _ => true) 0 abW
        { rcommand := some "noop", rdata := some none }
      = Except.ok (abW, []) :=
  C5_unknown_command_ignored (fun _ _ _ => true) 0 abW "noop" none (by decide)

/-- Claim C9: a raw message lacking the `'command'` key or the `'data'` key
makes `notify` raise `KeyError` in `__parse_message`, before any dispatch;
since parsing precedes all dispatch, no membership or liveness state is
touched (the model returns the error with no successor state or trace). -/
theorem C9_missing_key_raises (deliver : Transport) (t : Nat) (ab : AddressBook)
    (message : RawMessage) (h : message.rcommand = none ∨ message.rdata = none) :
    AddressBook.notify deliver t ab message = Except.error PyError.keyError := by
  rcases hc : message.rcommand with _ | c
  · simp [AddressBook.notify, AddressBook.parse_message, hc]
  · rcases h with h | h
    · rw [hc] at h; cases h
    · simp [AddressBook.notify, AddressBook.parse_message, hc, h]

/-- Concrete instance of C9: an envelope with a command but no data key
raises `KeyError`. -/
theorem C9_witness :
    AddressBook.notify (fun _ _ _ => true) 0 abW
        { rcommand := some "add-contact", rdata := none }
      = Except.error PyError.keyError :=
  C9_missing_key_raises (fun _ _ _ => true) 0 abW
    { rcommand := some "add-contact", rdata := none } (Or.inr rfl)

/-! ### Lemmas about the eviction loop -/

theorem set_link_state_ids (t : Nat) (b : Bool) (ab : AddressBook) (c : Contact) :
    (AddressBook.set_link_state t b ab c).contacts.map Contact.id
      = ab.contacts.map Contact.id := by
  unfold AddressBook.set_link_state
  rw [List.map_map]
  apply List.map_congr_left
  intro a _
  by_cases hid : a.id = c.id <;> cases b <;>
    simp [hid, Function.comp, Contact.link_up_id, Contact.link_down_id]

theorem set_link_state_length (t : Nat) (b : Bool) (ab : AddressBook) (c : Contact) :
    (AddressBook.set_link_state t b ab c).contacts.length = ab.contacts.length := by
  unfold AddressBook.set_link_state
  exact List.length_map _ _

theorem delete_loop_length_le (id0 : String) (l : List Contact) :
    (AddressBook.delete_loop id0 l).length ≤ l.length := by
  induction l with
  | nil => simp [AddressBook.delete_loop]
  | cons kc rest ih =>
    unfold AddressBook.delete_loop
    split
    · simp
    · simpa using Nat.succ_le_succ ih

theorem delete_loop_subset (id0 : String) (l : List Contact) :
    ∀ q ∈ AddressBook.delete_loop id0 l, q ∈ l := by
  induction l with
  | nil => simp [AddressBook.delete_loop]
  | cons kc rest ih =>
    intro q hq
    unfold AddressBook.delete_loop at hq
    split at hq
    · exact List.mem_cons_of_mem kc hq
    · rcases List.mem_cons.mp hq with h | h
      · exact h ▸ List.mem_cons_self kc rest
      · exact List.mem_cons_of_mem kc (ih q h)

theorem delete_loop_mem_of_ne (id0 : String) (l : List Contact) (q : Contact)
    (hq : q ∈ l) (hne : q.id ≠ id0) : q ∈ AddressBook.delete_loop id0 l := by
  induction l with
  | nil => cases hq
  | cons kc rest ih =>
    unfold AddressBook.delete_loop
    rcases List.mem_cons.mp hq with h | h
    · subst h
      simp [hne]
    · split
      · exact h
      · exact List.mem_cons_of_mem kc (ih h)

theorem delete_loop_no_match (id0 : String) (l : List Contact)
    (hnd : (l.map Contact.id).Nodup) :
    ∀ q ∈ AddressBook.delete_loop id0 l, q.id ≠ id0 := by
  induction l with
  | nil => simp [AddressBook.delete_loop]
  | cons kc rest ih =>
    simp only [List.map_cons, List.nodup_cons] at hnd
    intro q hq
    unfold AddressBook.delete_loop at hq
    split at hq
    · intro hx
      rename_i hkc
      apply hnd.1
      rw [hkc, ← hx]
      exact List.mem_map_of_mem Contact.id hq
    · rcases List.mem_cons.mp hq with h | h
      · subst h; assumption
      · exact ih hnd.2 q h

theorem ping_step_length_le (deliver : Transport) (t : Nat) (ab : AddressBook)
    (contact : Contact) :
    (AddressBook.ping_step deliver t ab contact).1.contacts.length
      ≤ ab.contacts.length := by
  unfold AddressBook.ping_step AddressBook.send_message_to_contact
  by_cases h : contact.is_active
  · simp [h]
  · cases hd : deliver contact.host contact.port AddressBook.generate_ping_message
    · rcases hf : contact.first_failure with _ | f <;>
        simp only [h, hd, hf, Bool.false_eq_true, if_false]
      · exact Nat.le_of_eq (set_link_state_length t false ab contact)
      · split
        · exact le_trans
            (delete_loop_length_le contact.id _)
            (Nat.le_of_eq (set_link_state_length t false ab contact))
        · exact Nat.le_of_eq (set_link_state_length t false ab contact)
    · simp only [h, hd, Bool.false_eq_true, if_false, if_true]
      exact Nat.le_of_eq (set_link_state_length t true ab contact)

theorem ping_step_trace (deliver : Transport) (t : Nat) (ab : AddressBook)
    (contact : Contact) :
    (AddressBook.ping_step deliver t ab contact).2
      = if contact.is_active then []
        else [(contact.id, AddressBook.generate_ping_message)] := by
  unfold AddressBook.ping_step AddressBook.send_message_to_contact
  by_cases h : contact.is_active
  · simp [h]
  · cases hd : deliver contact.host contact.port AddressBook.generate_ping_message
    · rcases hf : contact.first_failure with _ | f <;>
        simp only [h, hd, hf, Bool.false_eq_true, if_false] <;>
        first
        | rfl
        | (split <;> rfl)
    · simp [h, hd]

theorem set_link_state_preserves_active_id (t : Nat) (b : Bool) (ab : AddressBook)
    (c : Contact) (x : String) (hcx : b = false → c.id ≠ x)
    (h : ∀ q ∈ ab.contacts, q.id = x → q.is_active = true) :
    ∀ q ∈ (AddressBook.set_link_state t b ab c).contacts,
      q.id = x → q.is_active = true := by
  intro q hq hqx
  unfold AddressBook.set_link_state at hq
  simp only [List.mem_map] at hq
  obtain ⟨e, he, rfl⟩ := hq
  by_cases hid : e.id = c.id
  · cases b
    · rw [if_pos hid, if_neg (by simp)] at hqx ⊢
      rw [Contact.link_down_id] at hqx
      exact absurd (hid ▸ hqx) (hcx rfl)
    · rw [if_pos hid, if_pos rfl]
      exact Contact.is_active_link_up e
  · rw [if_neg hid] at hqx ⊢
    exact h e he hqx

theorem ping_step_preserves_active_id (deliver : Transport) (t : Nat) (ab : AddressBook)
    (contact : Contact) (x : String) (hmem : contact ∈ ab.contacts)
    (h : ∀ q ∈ ab.contacts, q.id = x → q.is_active = true) :
    ∀ q ∈ (AddressBook.ping_step deliver t ab contact).1.contacts,
      q.id = x → q.is_active = true := by
  unfold AddressBook.ping_step AddressBook.send_message_to_contact
  by_cases ha : contact.is_active
  · simpa [ha] using h
  · have hcx : contact.id ≠ x := fun hx => by
      have := h contact hmem hx
      rw [this] at ha
      exact ha rfl
    cases hd : deliver contact.host contact.port AddressBook.generate_ping_message
    · rcases hf : contact.first_failure with _ | f <;>
        simp only [ha, hd, hf, Bool.false_eq_true, if_false]
      · exact set_link_state_preserves_active_id t false ab contact x (fun _ => hcx) h
      · split
        · intro q hq hqx
          unfold AddressBook.delete_contact at hq
          have hq' := delete_loop_subset contact.id _ q hq
          exact set_link_state_preserves_active_id t false ab contact x
            (fun _ => hcx) h q hq' hqx
        · exact set_link_state_preserves_active_id t false ab contact x (fun _ => hcx) h
    · simp only [ha, hd, Bool.false_eq_true, if_false, if_true]
      exact set_link_state_preserves_active_id t true ab contact x
        (fun h0 => nomatch h0) h

theorem ping_loop_trace_ping (deliver : Transport) (t : Nat) :
    ∀ (fuel i : Nat) (ab : AddressBook),
      ∀ p ∈ (AddressBook.ping_loop deliver t fuel i ab).2,
        p.2 = AddressBook.generate_ping_message := by
  intro fuel
  induction fuel with
  | zero => intro i ab p hp; simp [AddressBook.ping_loop] at hp
  | succ fuel ih =>
    intro i ab p hp
    rcases hc : ab.contacts[i]? with _ | contact
    · simp [AddressBook.ping_loop, hc] at hp
    · simp only [AddressBook.ping_loop, hc, List.mem_append] at hp
      rcases hp with hp | hp
      · rw [ping_step_trace] at hp
        by_cases ha : contact.is_active
        · simp [ha] at hp
        · simp only [ha, Bool.false_eq_true, if_false, List.mem_singleton] at hp
          rw [hp]
      · exact ih (i + 1) _ p hp

theorem ping_loop_no_send_to_active (deliver : Transport) (t : Nat) (x : String) :
    ∀ (fuel i : Nat) (ab : AddressBook),
      (∀ q ∈ ab.contacts, q.id = x → q.is_active = true) →
      ∀ p ∈ (AddressBook.ping_loop deliver t fuel i ab).2, p.1 ≠ x := by
  intro fuel
  induction fuel with
  | zero => intro i ab _ p hp; simp [AddressBook.ping_loop] at hp
  | succ fuel ih =>
    intro i ab h p hp
    rcases hc : ab.contacts[i]? with _ | contact
    · simp [AddressBook.ping_loop, hc] at hp
    · simp only [AddressBook.ping_loop, hc, List.mem_append] at hp
      rcases hp with hp | hp
      · rw [ping_step_trace] at hp
        by_cases ha : contact.is_active
        · simp [ha] at hp
        · simp only [ha, Bool.false_eq_true, if_false, List.mem_singleton] at hp
          have hcx : contact.id ≠ x := fun hx => by
            have := h contact (List.getElem?_mem hc) hx
            rw [this] at ha
            exact ha rfl
          rw [hp]
          exact hcx
      · exact ih (i + 1) _ (ping_step_preserves_active_id deliver t ab contact x
          (List.getElem?_mem hc) h) p hp

/-! ### Claim C8: the eviction loop probes only inactive peers -/

/-- Claim C8: during one cycle of the eviction loop every sent message is a
ping, and a peer that is active at the time of the cycle's scan is never sent
anything by the loop (so in particular never a ping). -/
theorem C8_pings_only_inactive (deliver : Transport) (t : Nat) (ab : AddressBook)
    (x : String) (h : ∀ q ∈ ab.contacts, q.id = x → q.is_active = true) :
    (∀ p ∈ (AddressBook.ping_cycle deliver t ab).2,
        p.2 = AddressBook.generate_ping_message) ∧
    (∀ p ∈ (AddressBook.ping_cycle deliver t ab).2, p.1 ≠ x) := by
  unfold AddressBook.ping_cycle
  exact ⟨ping_loop_trace_ping deliver t ab.contacts.length 0 ab,
         ping_loop_no_send_to_active deliver t x ab.contacts.length 0 ab h⟩

/-- Concrete instance of C8: with an active peer `a` and an inactive peer `b`
in the view, a failing cycle sends only pings and never to `a`. -/
theorem C8_witness :
    (∀ p ∈ (AddressBook.ping_cycle (fun _ _ _ => false) 2
        { self_contact := Contact.mk "me" "hs" 1 none,
          contacts := [Contact.mk "a" "ha" 2 none, Contact.mk "b" "hb" 3 (some 0)],
          contact_restore_timeout := 3 }).2,
        p.2 = AddressBook.generate_ping_message) ∧
    (∀ p ∈ (AddressBook.ping_cycle (fun _ _ _ => false) 2
        { self_contact := Contact.mk "me" "hs" 1 none,
          contacts := [Contact.mk "a" "ha" 2 none, Contact.mk "b" "hb" 3 (some 0)],
          contact_restore_timeout := 3 }).2, p.1 ≠ "a") :=
  C8_pings_only_inactive (fun _ _ _ => false) 2
    { self_contact := Contact.mk "me" "hs" 1 none,
      contacts := [Contact.mk "a" "ha" 2 none, Contact.mk "b" "hb" 3 (some 0)],
      contact_restore_timeout := 3 } "a" (by decide)

/-! ### Position and uniqueness lemmas for the eviction proof -/

theorem nodup_ids_ne_of_ne_pos (l : List Contact) (hnd : (l.map Contact.id).Nodup)
    {i j : Nat} {c p : Contact} (hi : l[i]? = some c) (hj : l[j]? = some p)
    (hij : i ≠ j) : c.id ≠ p.id := by
  obtain ⟨hi', hie⟩ := List.getElem?_eq_some_iff.mp hi
  obtain ⟨hj', hje⟩ := List.getElem?_eq_some_iff.mp hj
  intro he
  have key : (l.map Contact.id)[i]? = (l.map Contact.id)[j]? := by
    rw [List.getElem?_map, List.getElem?_map, hi, hj]
    simp [he]
  rcases Nat.lt_trichotomy i j with h | h | h
  · exact absurd key (List.nodup_iff_getElem?_ne_getElem?.mp hnd i j h (by simpa using hj'))
  · exact hij h
  · exact absurd key.symm
      (List.nodup_iff_getElem?_ne_getElem?.mp hnd j i h (by simpa using hi'))

theorem nodup_ids_mem_eq (l : List Contact) (hnd : (l.map Contact.id).Nodup)
    (q1 q2 : Contact) (h1 : q1 ∈ l) (h2 : q2 ∈ l) (hid : q1.id = q2.id) : q1 = q2 := by
  induction l with
  | nil => cases h1
  | cons a rest ih =>
    simp only [List.map_cons, List.nodup_cons] at hnd
    rcases List.mem_cons.mp h1 with h1 | h1 <;> rcases List.mem_cons.mp h2 with h2 | h2
    · rw [h1, h2]
    · exfalso
      apply hnd.1
      rw [← h1, hid]
      exact List.mem_map_of_mem Contact.id h2
    · exfalso
      apply hnd.1
      rw [← h2, ← hid]
      exact List.mem_map_of_mem Contact.id h1
    · exact ih hnd.2 h1 h2

theorem set_link_state_getElem_ne (t : Nat) (b : Bool) (ab : AddressBook) (c : Contact)
    (i : Nat) (hc : ab.contacts[i]? = some c)
    (hnd : (ab.contacts.map Contact.id).Nodup) :
    ∀ k, k ≠ i → (AddressBook.set_link_state t b ab c).contacts[k]? = ab.contacts[k]? := by
  intro k hk
  unfold AddressBook.set_link_state
  rw [List.getElem?_map]
  rcases he : ab.contacts[k]? with _ | e
  · rfl
  · have hne : e.id ≠ c.id := nodup_ids_ne_of_ne_pos ab.contacts hnd he hc hk
    simp [hne]

theorem set_link_state_mem_of_ne (t : Nat) (b : Bool) (ab : AddressBook) (c q : Contact)
    (hq : q ∈ ab.contacts) (hne : q.id ≠ c.id) :
    q ∈ (AddressBook.set_link_state t b ab c).contacts := by
  unfold AddressBook.set_link_state
  exact List.mem_map.mpr ⟨q, hq, by simp [hne]⟩

theorem set_entry_id (t : Nat) (b : Bool) (c e : Contact) :
    (if e.id = c.id then (if b then e.link_up else e.link_down t) else e).id = e.id := by
  by_cases hid : e.id = c.id <;> cases b <;>
    simp only [hid, if_true, if_false, Contact.link_up_id, Contact.link_down_id,
      Bool.false_eq_true, if_pos, if_neg]

theorem set_link_state_absent (t : Nat) (b : Bool) (ab : AddressBook) (c : Contact)
    (x : String) (h : ∀ q ∈ ab.contacts, q.id ≠ x) :
    ∀ q ∈ (AddressBook.set_link_state t b ab c).contacts, q.id ≠ x := by
  intro q hq
  unfold AddressBook.set_link_state at hq
  simp only [List.mem_map] at hq
  obtain ⟨e, he, rfl⟩ := hq
  rw [set_entry_id t b c e]
  exact h e he

theorem delete_loop_sublist (id0 : String) (l : List Contact) :
    List.Sublist (AddressBook.delete_loop id0 l) l := by
  induction l with
  | nil => simp [AddressBook.delete_loop]
  | cons kc rest ih =>
    unfold AddressBook.delete_loop
    split
    · exact List.sublist_cons_self kc rest
    · exact List.cons_sublist_cons.mpr ih

theorem ping_step_nodup (deliver : Transport) (t : Nat) (ab : AddressBook)
    (contact : Contact) (hnd : (ab.contacts.map Contact.id).Nodup) :
    ((AddressBook.ping_step deliver t ab contact).1.contacts.map Contact.id).Nodup := by
  unfold AddressBook.ping_step AddressBook.send_message_to_contact
  by_cases ha : contact.is_active
  · simpa [ha] using hnd
  · cases hd : deliver contact.host contact.port AddressBook.generate_ping_message
    · rcases hf : contact.first_failure with _ | f <;>
        simp only [ha, hd, hf, Bool.false_eq_true, if_false]
      · rw [set_link_state_ids]; exact hnd
      · split
        · unfold AddressBook.delete_contact
          have hnd2 : ((AddressBook.set_link_state t false ab contact).contacts.map
              Contact.id).Nodup := by
            rw [set_link_state_ids]; exact hnd
          exact hnd2.sublist ((delete_loop_sublist contact.id
            (AddressBook.set_link_state t false ab contact).contacts).map Contact.id)
        · rw [set_link_state_ids]; exact hnd
    · simp only [ha, hd, Bool.false_eq_true, if_false, if_true]
      rw [set_link_state_ids]; exact hnd

theorem ping_step_timeout (deliver : Transport) (t : Nat) (ab : AddressBook)
    (contact : Contact) :
    (AddressBook.ping_step deliver t ab contact).1.contact_restore_timeout
      = ab.contact_restore_timeout := by
  unfold AddressBook.ping_step AddressBook.send_message_to_contact
    AddressBook.delete_contact AddressBook.set_link_state
  by_cases ha : contact.is_active
  · simp [ha]
  · cases hd : deliver contact.host contact.port AddressBook.generate_ping_message <;>
      rcases hf : contact.first_failure with _ | f <;>
      simp only [ha, hd, hf, Bool.false_eq_true, if_false, if_true] <;>
      first
      | rfl
      | (split <;> rfl)

theorem ping_step_mem_of_ne (deliver : Transport) (t : Nat) (ab : AddressBook)
    (contact q : Contact) (hq : q ∈ ab.contacts) (hne : q.id ≠ contact.id) :
    q ∈ (AddressBook.ping_step deliver t ab contact).1.contacts := by
  have hset : ∀ b, q ∈ (AddressBook.set_link_state t b ab contact).contacts :=
    fun b => set_link_state_mem_of_ne t b ab contact q hq hne
  unfold AddressBook.ping_step AddressBook.send_message_to_contact
  by_cases ha : contact.is_active
  · simpa [ha] using hq
  · cases hd : deliver contact.host contact.port AddressBook.generate_ping_message
    · rcases hf : contact.first_failure with _ | f <;>
        simp only [ha, hd, hf, Bool.false_eq_true, if_false]
      · exact hset false
      · split
        · unfold AddressBook.delete_contact
          exact delete_loop_mem_of_ne contact.id _ q (hset false) hne
        · exact hset false
    · simp only [ha, hd, Bool.false_eq_true, if_false, if_true]
      exact hset true

theorem ping_step_absent_id (deliver : Transport) (t : Nat) (ab : AddressBook)
    (contact : Contact) (x : String) (h : ∀ q ∈ ab.contacts, q.id ≠ x) :
    ∀ q ∈ (AddressBook.ping_step deliver t ab contact).1.contacts, q.id ≠ x := by
  have hset : ∀ b, ∀ q ∈ (AddressBook.set_link_state t b ab contact).contacts, q.id ≠ x :=
    fun b => set_link_state_absent t b ab contact x h
  unfold AddressBook.ping_step AddressBook.send_message_to_contact
  by_cases ha : contact.is_active
  · simpa [ha] using h
  · cases hd : deliver contact.host contact.port AddressBook.generate_ping_message
    · rcases hf : contact.first_failure with _ | f <;>
        simp only [ha, hd, hf, Bool.false_eq_true, if_false]
      · exact hset false
      · split
        · intro q hq
          unfold AddressBook.delete_contact at hq
          exact hset false q (delete_loop_subset contact.id _ q hq)
        · exact hset false
    · simp only [ha, hd, Bool.false_eq_true, if_false, if_true]
      exact hset true

theorem ping_step_frame (deliver : Transport) (t : Nat) (ab : AddressBook)
    (contact : Contact) (i : Nat) (hc : ab.contacts[i]? = some contact)
    (hnd : (ab.contacts.map Contact.id).Nodup)
    (hnodel : contact.is_active = true ∨
      deliver contact.host contact.port AddressBook.generate_ping_message = true ∨
      ∃ f, contact.first_failure = some f ∧ t - f ≤ ab.contact_restore_timeout) :
    ∀ k, k ≠ i →
      (AddressBook.ping_step deliver t ab contact).1.contacts[k]? = ab.contacts[k]? := by
  intro k hk
  unfold AddressBook.ping_step AddressBook.send_message_to_contact
  by_cases ha : contact.is_active
  · simp [ha]
  · cases hd : deliver contact.host contact.port AddressBook.generate_ping_message
    · rcases hf : contact.first_failure with _ | f
      · rw [Contact.is_active, hf] at ha
        exact absurd rfl ha
      · rcases hnodel with h1 | h2 | ⟨f', hf', hle⟩
        · exact absurd h1 ha
        · rw [hd] at h2; cases h2
        · rw [hf] at hf'
          injection hf' with hff
          subst hff
          have hno : ¬ ab.contact_restore_timeout < t - f := by omega
          simp only [ha, hd, hf, Bool.false_eq_true, if_false, hno]
          exact set_link_state_getElem_ne t false ab contact i hc hnd k hk
    · simp only [ha, hd, Bool.false_eq_true, if_false, if_true]
      exact set_link_state_getElem_ne t true ab contact i hc hnd k hk

theorem ping_loop_absent_id (deliver : Transport) (t : Nat) (x : String) :
    ∀ (fuel i : Nat) (ab : AddressBook), (∀ q ∈ ab.contacts, q.id ≠ x) →
      ∀ q ∈ (AddressBook.ping_loop deliver t fuel i ab).1.contacts, q.id ≠ x := by
  intro fuel
  induction fuel with
  | zero => intro i ab h; simpa [AddressBook.ping_loop] using h
  | succ fuel ih =>
    intro i ab h
    rcases hc : ab.contacts[i]? with _ | contact
    · simpa [AddressBook.ping_loop, hc] using h
    · simp only [AddressBook.ping_loop, hc]
      exact ih (i + 1) _ (ping_step_absent_id deliver t ab contact x h)

theorem ping_loop_removes (deliver : Transport) (t : Nat) :
    ∀ (fuel i j : Nat) (ab : AddressBook) (p : Contact),
      ab.contacts.length ≤ i + fuel →
      (ab.contacts.map Contact.id).Nodup →
      i ≤ j →
      ab.contacts[j]? = some p →
      (∀ k, i ≤ k → k < j → ∀ q, ab.contacts[k]? = some q →
        q.is_active = true ∨
        deliver q.host q.port AddressBook.generate_ping_message = true ∨
        ∃ f, q.first_failure = some f ∧ t - f ≤ ab.contact_restore_timeout) →
      p.is_active = false →
      (∀ f, p.first_failure = some f → ab.contact_restore_timeout < t - f) →
      deliver p.host p.port AddressBook.generate_ping_message = false →
      ∀ q ∈ (AddressBook.ping_loop deliver t fuel i ab).1.contacts, q.id ≠ p.id := by
  intro fuel
  induction fuel with
  | zero =>
    intro i j ab p hlen hnd hij hj hpre hpa hpf hpd q hq
    obtain ⟨hjlt, -⟩ := List.getElem?_eq_some_iff.mp hj
    omega
  | succ fuel ih =>
    intro i j ab p hlen hnd hij hj hpre hpa hpf hpd q hq
    obtain ⟨hjlt, -⟩ := List.getElem?_eq_some_iff.mp hj
    have hilt : i < ab.contacts.length := Nat.lt_of_le_of_lt hij hjlt
    rcases hc : ab.contacts[i]? with _ | contact
    · rw [List.getElem?_eq_none_iff] at hc
      omega
    · rcases Nat.eq_or_lt_of_le hij with heq | hlt
      · -- the cursor has reached the doomed contact: it gets pinged and evicted
        subst heq
        have hcp : contact = p := Option.some.inj (hc.symm.trans hj)
        subst hcp
        rcases hff : contact.first_failure with _ | f
        · rw [Contact.is_active, hff] at hpa
          cases hpa
        · have hex : ab.contact_restore_timeout < t - f := hpf f hff
          have habs : ∀ r ∈ (AddressBook.ping_step deliver t ab contact).1.contacts,
              r.id ≠ contact.id := by
            unfold AddressBook.ping_step AddressBook.send_message_to_contact
            simp only [hpa, hpd, hff, Bool.false_eq_true, if_false, hex, if_true]
            intro r hr
            unfold AddressBook.delete_contact at hr
            apply delete_loop_no_match contact.id _ _ r hr
            rw [set_link_state_ids]
            exact hnd
          simp only [AddressBook.ping_loop, hc] at hq
          exact ping_loop_absent_id deliver t contact.id fuel (i + 1) _ habs q hq
      · -- the cursor is still left of the doomed contact; the prefix cannot evict
        have hframe := ping_step_frame deliver t ab contact i hc hnd
          (hpre i (Nat.le_refl i) hlt contact hc)
        have htlen := ping_step_length_le deliver t ab contact
        have htids := ping_step_nodup deliver t ab contact hnd
        have httime := ping_step_timeout deliver t ab contact
        simp only [AddressBook.ping_loop, hc] at hq
        refine ih (i + 1) j (AddressBook.ping_step deliver t ab contact).1 p
          (by omega) htids hlt ?_ ?_ hpa ?_ hpd q hq
        · rw [hframe j (by omega)]
          exact hj
        · intro k hk1 hk2 q' hq'
          rw [hframe k (by omega)] at hq'
          rw [httime]
          exact hpre k (by omega) hk2 q' hq'
        · intro f hf
          rw [httime]
          exact hpf f hf

theorem ping_step_preserves_survivor (deliver : Transport) (t : Nat) (ab : AddressBook)
    (contact : Contact) (x h0 : String) (p0 : Nat)
    (hmem : contact ∈ ab.contacts) (hnd : (ab.contacts.map Contact.id).Nodup)
    (q : Contact) (hq : q ∈ ab.contacts) (hqx : q.id = x) (hqh : q.host = h0)
    (hqp : q.port = p0)
    (hcond : q.is_active = true ∨
      deliver h0 p0 AddressBook.generate_ping_message = true ∨
      ∃ f, q.first_failure = some f ∧ t - f ≤ ab.contact_restore_timeout) :
    ∃ q' ∈ (AddressBook.ping_step deliver t ab contact).1.contacts,
      q'.id = x ∧ q'.host = h0 ∧ q'.port = p0 ∧
      (q'.is_active = true ∨
       deliver h0 p0 AddressBook.generate_ping_message = true ∨
       ∃ f, q'.first_failure = some f ∧
         t - f ≤ (AddressBook.ping_step deliver t ab contact).1.contact_restore_timeout) := by
  rw [ping_step_timeout]
  by_cases hqc : q.id = contact.id
  · have hqe : q = contact := nodup_ids_mem_eq ab.contacts hnd q contact hq hmem hqc
    subst hqe
    by_cases ha : q.is_active
    · refine ⟨q, ?_, hqx, hqh, hqp, Or.inl ha⟩
      unfold AddressBook.ping_step
      simp only [ha, if_true]
      exact hq
    · rcases hff : q.first_failure with _ | f0
      · rw [Contact.is_active, hff] at ha
        exact absurd rfl ha
      · cases hd : deliver q.host q.port AddressBook.generate_ping_message
        · have hd0 : deliver h0 p0 AddressBook.generate_ping_message = false := by
            rw [← hqh, ← hqp]
            exact hd
          rcases hcond with h1 | h2 | ⟨f, hf, hle⟩
          · exact absurd h1 ha
          · rw [hd0] at h2; cases h2
          · have hf0 : f = f0 := by
              rw [hff] at hf
              exact (Option.some.inj hf).symm
            subst hf0
            have hno : ¬ ab.contact_restore_timeout < t - f := by omega
            refine ⟨q, ?_, hqx, hqh, hqp, Or.inr (Or.inr ⟨f, hff, hle⟩)⟩
            unfold AddressBook.ping_step AddressBook.send_message_to_contact
            simp only [ha, hd, hff, Bool.false_eq_true, if_false, hno]
            exact List.mem_map.mpr ⟨q, hq, by simp [Contact.link_down_of_inactive q t f hff]⟩
        · refine ⟨q.link_up, ?_, by rw [Contact.link_up_id]; exact hqx,
            by rw [Contact.link_up_host]; exact hqh,
            by rw [Contact.link_up_port]; exact hqp,
            Or.inl (Contact.is_active_link_up q)⟩
          unfold AddressBook.ping_step AddressBook.send_message_to_contact
          simp only [ha, hd, Bool.false_eq_true, if_false, if_true]
          exact List.mem_map.mpr ⟨q, hq, by simp⟩
  · exact ⟨q, ping_step_mem_of_ne deliver t ab contact q hq hqc, hqx, hqh, hqp, hcond⟩

theorem ping_loop_survives (deliver : Transport) (t : Nat) (x h0 : String) (p0 : Nat) :
    ∀ (fuel i : Nat) (ab : AddressBook),
      (ab.contacts.map Contact.id).Nodup →
      ∀ q ∈ ab.contacts, q.id = x → q.host = h0 → q.port = p0 →
      (q.is_active = true ∨
       deliver h0 p0 AddressBook.generate_ping_message = true ∨
       ∃ f, q.first_failure = some f ∧ t - f ≤ ab.contact_restore_timeout) →
      ∃ q' ∈ (AddressBook.ping_loop deliver t fuel i ab).1.contacts, q'.id = x := by
  intro fuel
  induction fuel with
  | zero =>
    intro i ab _ q hq hqx _ _ _
    exact ⟨q, by simpa [AddressBook.ping_loop] using hq, hqx⟩
  | succ fuel ih =>
    intro i ab hnd q hq hqx hqh hqp hcond
    rcases hc : ab.contacts[i]? with _ | contact
    · exact ⟨q, by simpa [AddressBook.ping_loop, hc] using hq, hqx⟩
    · obtain ⟨q', hq', hq'x, hq'h, hq'p, hq'cond⟩ :=
        ping_step_preserves_survivor deliver t ab contact x h0 p0
          (List.getElem?_mem hc) hnd q hq hqx hqh hqp hcond
      have hrec := ih (i + 1) (AddressBook.ping_step deliver t ab contact).1
        (ping_step_nodup deliver t ab contact hnd) q' hq' hq'x hq'h hq'p hq'cond
      simpa [AddressBook.ping_loop, hc] using hrec

/-! ### Claim C4: eviction of expired inactive peers -/

/-- Concrete address book for the C4 instances: one active peer `a` scanned
first and one expired inactive peer `p`. -/
def abC4 : AddressBook :=
  { self_contact := Contact.mk "me" "hs" 1 none,
    contacts := [Contact.mk "a" "ha" 2 none, Contact.mk "p" "hp" 3 (some 0)],
    contact_restore_timeout := 3 }

/-- Claim C4 (amended): in a cycle at clock time `t`, an inactive peer whose
ping fails and whose failure streak *strictly* exceeds the restore timeout
(`t - first_failure > timeout`, the code's `>` on line 264) is removed at
that cycle, provided no peer scanned before it is evicted in the same cycle
(the prefix condition below: every earlier peer is active, or pings
successfully, or is still within the timeout — a same-cycle eviction of an
earlier peer shifts the live list under the iterator and postpones this
peer's probe to a later cycle); and a peer that is active, or whose ping
succeeds, or whose streak is still within the timeout, is never evicted in
the cycle. -/
theorem C4_eviction_strict_stable_scan (deliver : Transport) (t : Nat)
    (ab : AddressBook) (hnd : (ab.contacts.map Contact.id).Nodup) :
    (∀ (j : Nat) (p : Contact), ab.contacts[j]? = some p →
      (∀ k, k < j → ∀ q, ab.contacts[k]? = some q →
        q.is_active = true ∨
        deliver q.host q.port AddressBook.generate_ping_message = true ∨
        ∃ f, q.first_failure = some f ∧ t - f ≤ ab.contact_restore_timeout) →
      p.is_active = false →
      (∀ f, p.first_failure = some f → ab.contact_restore_timeout < t - f) →
      deliver p.host p.port AddressBook.generate_ping_message = false →
      ∀ q ∈ (AddressBook.ping_cycle deliver t ab).1.contacts, q.id ≠ p.id) ∧
    (∀ q ∈ ab.contacts,
      (q.is_active = true ∨
       deliver q.host q.port AddressBook.generate_ping_message = true ∨
       ∃ f, q.first_failure = some f ∧ t - f ≤ ab.contact_restore_timeout) →
      ∃ q' ∈ (AddressBook.ping_cycle deliver t ab).1.contacts, q'.id = q.id) := by
  unfold AddressBook.ping_cycle
  constructor
  · intro j p hj hpre hpa hpf hpd
    exact ping_loop_removes deliver t ab.contacts.length 0 j ab p (by omega) hnd
      (Nat.zero_le j) hj (fun k _ hk2 => hpre k hk2) hpa hpf hpd
  · intro q hq hcond
    exact ping_loop_survives deliver t q.id q.host q.port ab.contacts.length 0 ab hnd
      q hq rfl rfl rfl hcond

/-- Concrete instance of C4 (amended) with every hypothesis discharged: at
time `t = 5` with timeout `3`, all sends failing, the expired peer `p`
(failed since `0`) is evicted while the active peer `a` survives the cycle. -/
theorem C4_witness :
    (∀ q ∈ (AddressBook.ping_cycle (fun _ _ _ => false) 5 abC4).1.contacts,
        q.id ≠ "p") ∧
    (∃ q' ∈ (AddressBook.ping_cycle (fun _ _ _ => false) 5 abC4).1.contacts,
        q'.id = "a") := by
  constructor
  · intro q hq
    exact (C4_eviction_strict_stable_scan (fun _ _ _ => false) 5 abC4
        (by decide)).1 1 (Contact.mk "p" "hp" 3 (some 0)) rfl
      (by
        intro k hk q' hq'
        have hk0 : k = 0 := by omega
        subst hk0
        have hq'a : q' = Contact.mk "a" "ha" 2 none := by
          have : abC4.contacts[0]? = some (Contact.mk "a" "ha" 2 none) := rfl
          rw [this] at hq'
          exact (Option.some.inj hq').symm
        subst hq'a
        exact Or.inl rfl)
      rfl
      (by
        intro f hf
        have hf0 : f = 0 := (Option.some.inj hf).symm
        subst hf0
        decide)
      rfl q hq
  · exact (C4_eviction_strict_stable_scan (fun _ _ _ => false) 5 abC4
        (by decide)).2 (Contact.mk "a" "ha" 2 none) (by decide) (Or.inl rfl)

/-- Claim C4 counterexample, as the claim is stated: with restore timeout 1, a
peer inactive since time `0`, every send failing, at cycle time `t = 1` the
claim's condition `t ≥ first_failure + timeout` holds (`1 ≥ 0 + 1`), the ping
fails, yet the peer is *not* removed: line 264 tests `t - first_failure >
timeout` strictly, and `1 - 0 > 1` is false, so the view still contains the
peer after the cycle. -/
theorem C4_counterexample :
    (Contact.mk "p" "hp" 2 (some 0)).first_failure = some 0 ∧
    (1 : Nat) ≥ 0 + 1 ∧
    (AddressBook.ping_cycle (fun _ _ _ => false) 1
        { self_contact := Contact.mk "me" "hs" 1 none,
          contacts := [Contact.mk "p" "hp" 2 (some 0)],
          contact_restore_timeout := 1 }).1.contacts
      = [Contact.mk "p" "hp" 2 (some 0)] :=
  ⟨rfl, by decide, by decide⟩
